import Mathlib

/-!
Verification of the GeminiLink batch ETL worker (hjuming/geminilink-app).

The repository contains several snapshots of the same Cloudflare Worker:
the CSV importer (v11/v12 inside `src/index.ts` and the unnamed v11 file),
the awaited-upload CSV importer (v15, `GET /api/admin/batch-import`), and
the Airtable importer (v18, `getProductSqlStatements_v16`).  This file is a
shallow embedding of the batch-import pipeline of those snapshots:

* pure helpers (`getAudiencePrompt_v7`-adjacent classifier parsing,
  `getProductSqlStatements_v11`, `getProductSqlStatements_v16`,
  `fetchAndUploadImage`, `ensureSupplierExists`) are embedded as Lean
  functions over explicit data;
* the external services (R2, D1, Gemini, image origins) are modelled by
  per-row outcome oracles carried in the row record: the Lean functions
  describe exactly what the TypeScript code does for each possible outcome
  of the external calls;
* JavaScript library semantics (`parseInt`, `parseFloat`,
  `String.replace` with a string pattern, `Array.slice`, NaN propagation)
  are embedded as executable Lean functions (`jsParseInt`, `jsParseFloat`,
  `removeFirstChar`, `jsSlice`, `JNum`);
* `JSON.parse` on the (code-fence-stripped) model answer is modelled by
  its outcome, an `Except String Json` value carried by the generation
  oracle, over an inductive `Json` type;
* the free-text image-URL extraction (`parseImageUrls` regex) is kept
  abstract: rows carry the already-extracted ordered URL list, which is
  what the image loop consumes; no claim concerns the regex itself.

Log lines are modelled structurally (`LogEntry`) rather than as formatted
strings; each constructor records the data the corresponding
`importLog.push` call interpolates.
-/

/-- JSON values as produced by `JSON.parse`.  Object contents are not
needed by any claim, so `obj` is a single opaque constructor. -/
inductive Json where
  | null : Json
  | bool (b : Bool) : Json
  | num (n : Int) : Json
  | str (s : String) : Json
  | arr (elems : List Json) : Json
  | obj : Json

mutual

/-- Structural equality of JSON values. -/
def Json.beq : Json → Json → Bool
  | .null, .null => true
  | .bool a, .bool b => a == b
  | .num a, .num b => a == b
  | .str a, .str b => a == b
  | .arr xs, .arr ys => Json.beqList xs ys
  | .obj, .obj => true
  | _, _ => false

/-- Structural equality of JSON value lists. -/
def Json.beqList : List Json → List Json → Bool
  | [], [] => true
  | x :: xs, y :: ys => Json.beq x y && Json.beqList xs ys
  | _, _ => false

end

instance : BEq Json := ⟨Json.beq⟩

/-- JavaScript truthiness of a JSON value, as used by
`parsedResponse.filter(Boolean)` and `if (tag)`. -/
def Json.truthy : Json → Bool
  | .null => false
  | .bool b => b
  | .num n => n != 0
  | .str s => s != ""
  | .arr _ => true
  | .obj => true

/-- Is the value a JSON array (`Array.isArray`)? -/
def Json.isArr : Json → Bool
  | .arr _ => true
  | _ => false

/-- Outcome of the per-row text-generation step.  `threw` models
`model.generateContent` (or `result.response.text()`) throwing;
`returned` models a returned text whose cleaned form (code fences
stripped, trimmed) was fed to `JSON.parse`, with `parseResult` the
outcome of that parse (`.error` = `JSON.parse` threw a SyntaxError). -/
inductive GenOutcome where
  | threw (msg : String) : GenOutcome
  | returned (parseResult : Except String Json) : GenOutcome

/-- Outcome of fetching one image URL and uploading it to R2.
`ok` = `response.ok` and the `bucket.put` succeeded (with the observed
Content-Type header, if any); `httpError` = `!response.ok`; `threw` =
the fetch / arrayBuffer / put itself threw. -/
inductive FetchOutcome where
  | ok (contentType : Option String) : FetchOutcome
  | httpError (status : Nat) (statusText : String) : FetchOutcome
  | threw (msg : String) : FetchOutcome
deriving DecidableEq, Repr

/-- One image reference of a row: the URL extracted from the
`商品圖檔` cell, together with the oracle for its fetch-and-upload. -/
structure ImageSpec where
  url : String
  fetch : FetchOutcome
deriving DecidableEq, Repr

/-- Structured model of the `importLog` lines pushed by the import loop.
Each constructor carries the data the corresponding template literal
interpolates. -/
inductive LogEntry where
  /-- Line `SKU ... AI 失敗: ... 使用預設值` pushed in the AI catch block. -/
  | aiFallback (sku msg : String) : LogEntry
  /-- Line `SKU ... -> 供應商 ... -> 客群 ... -> 已準備 D1`. -/
  | prepared (sku supplierId : String) (tags : List Json) : LogEntry
  /-- Line `圖片 n -> 已上傳至 R2: key` (awaited variant, success). -/
  | imageUploaded (n : Nat) (r2Key : String) : LogEntry
  /-- Line `圖片 n -> (開始上傳至 R2: key)` (fire-and-forget variant). -/
  | imageUploadStarted (n : Nat) (r2Key : String) : LogEntry
  /-- Line `圖片 n (url...) 處理失敗: msg`; `urlHead` is the 30-char cut. -/
  | imageFailed (n : Nat) (urlHead msg : String) : LogEntry
  /-- Line `SKU ... 失敗：無法建立供應商 ...`. -/
  | supplierFailed (sku supplierId msg : String) : LogEntry
  /-- Line `警告：這個批次沒有產生任何 SQL 語句。`. -/
  | emptyBatchWarning : LogEntry

/-- The audience classifier step of the row loop (`5a. 呼叫 AI`):

    let audienceTags: string[] = ['other'];
    try {
      ... response.text().trim() ... strip fences ... JSON.parse ...
      audienceTags = Array.isArray(parsedResponse)
        ? parsedResponse.filter(Boolean) : ['other'];
    } catch (aiError) { importLog.push(`SKU ... AI 失敗 ...`); }

Returns the resulting tag list and the log lines pushed. -/
def classifyAudience (sku : String) (o : GenOutcome) : List Json × List LogEntry :=
  match o with
  | .threw m => ([Json.str "other"], [.aiFallback sku m])
  | .returned (.error m) => ([Json.str "other"], [.aiFallback sku m])
  | .returned (.ok v) =>
    match v with
    | .arr xs => (xs.filter Json.truthy, [])
    | _ => ([Json.str "other"], [])

/-! ## JavaScript number / string library semantics -/

/-- Numeric value of a run of decimal digit characters. -/
def digitsVal (ds : List Char) : Nat :=
  ds.foldl (fun a c => a * 10 + (c.toNat - 48)) 0

/-- Model of `parseInt(s, 10)`: skip leading whitespace, optional sign, then the
longest prefix of decimal digits; `none` (= NaN) when that prefix is
empty.  Trailing junk is ignored, so `parseInt("1,200") = 1`. -/
def jsParseInt (s : String) : Option Int :=
  let cs := s.toList.dropWhile (·.isWhitespace)
  let signAndRest : Int × List Char :=
    match cs with
    | '-' :: rest => (-1, rest)
    | '+' :: rest => (1, rest)
    | _ => (1, cs)
  let ds := signAndRest.2.takeWhile (·.isDigit)
  if ds.isEmpty then none
  else some (signAndRest.1 * (digitsVal ds : Int))

/-- Model of `parseFloat(s)`: skip leading whitespace, optional sign, decimal
digits with an optional fraction and an optional exponent; `none`
(= NaN) when no digits are found.  (The `Infinity` literal is not
modelled; no source input uses it.) -/
def jsParseFloat (s : String) : Option Rat :=
  let cs := s.toList.dropWhile (·.isWhitespace)
  let signAndRest : Rat × List Char :=
    match cs with
    | '-' :: rest => (-1, rest)
    | '+' :: rest => (1, rest)
    | _ => (1, cs)
  let intDs := signAndRest.2.takeWhile (·.isDigit)
  let afterInt := signAndRest.2.drop intDs.length
  let fracDs : List Char :=
    match afterInt with
    | '.' :: rest => rest.takeWhile (·.isDigit)
    | _ => []
  let afterFrac : List Char :=
    match afterInt with
    | '.' :: rest => rest.drop fracDs.length
    | _ => afterInt
  if intDs.isEmpty && fracDs.isEmpty then none
  else
    let mantissa : Rat :=
      (digitsVal intDs : Rat) + (digitsVal fracDs : Rat) / ((10 : Rat) ^ fracDs.length)
    let expVal : Int :=
      match afterFrac with
      | 'e' :: rest | 'E' :: rest =>
        match rest with
        | '-' :: ds => if (ds.takeWhile (·.isDigit)).isEmpty then 0
                       else -(digitsVal (ds.takeWhile (·.isDigit)) : Int)
        | '+' :: ds => if (ds.takeWhile (·.isDigit)).isEmpty then 0
                       else (digitsVal (ds.takeWhile (·.isDigit)) : Int)
        | ds => if (ds.takeWhile (·.isDigit)).isEmpty then 0
                else (digitsVal (ds.takeWhile (·.isDigit)) : Int)
      | _ => 0
    some (signAndRest.1 * mantissa * (10 : Rat) ^ expVal)

/-- Model of `s.replace(c, '')` with a one-character string pattern: JavaScript
`String.prototype.replace` with a string pattern removes only the FIRST
occurrence. -/
def removeFirstChar (c : Char) : List Char → List Char
  | [] => []
  | x :: xs => if x = c then xs else x :: removeFirstChar c xs

/-- Model of `parseFloat(row['重量g']) || 0`; NaN (and 0) collapse to 0. -/
def weightVal (s : String) : Rat :=
  (jsParseFloat s).getD 0

/-- Model of `parseInt(String(row['建議售價']).replace('$', '')) || 0`:
strip the first `$`, parse the leading digits, default 0 on NaN. -/
def msrpVal (s : String) : Int :=
  (jsParseInt (String.mk (removeFirstChar '$' s.toList))).getD 0

/-- Model of `parseInt(row[...]) || 0` for the inventory counters. -/
def intVal (s : String) : Int :=
  (jsParseInt s).getD 0

/-! ## Rows and write operations -/

/-- One CSV / Airtable row as consumed by the import loop.  Field names
romanize the source columns: `sku` = 商品貨號, `supplier` = 供應商,
`name` = 產品名稱, `nameEn` = 英文品名, `barcode` = 國際條碼,
`brand` = 品牌名稱, `description` = 商品介紹, `ingredients` = 成份/材質,
`dimensions` = 商品尺寸, `weightG` = 重量g, `origin` = 產地,
`msrp` = 建議售價, `casePack` = 箱入數, `inStock` = 現貨商品,
`category` = 類別, `stockGood` = 庫存_正品_可用,
`stockDefective` = 庫存_次品_可用.  CSV parsing yields strings, with
`""` for an empty/missing cell (the code only tests falsiness, for
which missing and `""` coincide).  `images` is the ordered URL list the
`商品圖檔` cell parses to, with each image's external outcome oracle;
`ai` is the text-generation oracle; `supplierCreateError` is `some msg`
when the D1 calls inside `ensureSupplierExists` throw for this row. -/
structure Row where
  sku : String := ""
  supplier : String := ""
  name : String := ""
  nameEn : String := ""
  barcode : String := ""
  brand : String := ""
  description : String := ""
  ingredients : String := ""
  dimensions : String := ""
  weightG : String := ""
  origin : String := ""
  msrp : String := ""
  casePack : String := ""
  inStock : String := ""
  category : String := ""
  stockGood : String := ""
  stockDefective : String := ""
  images : List ImageSpec := []
  ai : GenOutcome := .returned (.error "Unexpected end of JSON input")
  supplierCreateError : Option String := none

/-- The bound parameter tuple of the `INSERT OR IGNORE INTO Products`
statement (both v11 and v16 bind the same expressions). -/
structure ProductsRow where
  sku : String
  supplier_id : String
  name : String
  name_en : String
  barcode : Option String
  brand_name : String
  description : String
  ingredients : String
  size_dimensions : String
  weight_g : Rat
  origin : String
  msrp : Int
  case_pack : String
  is_public : Int
  is_active_product : Int
deriving DecidableEq, Repr

/-- The Products bind list of `getProductSqlStatements_v11`/`_v16`. -/
def productsRowOf (row : Row) (sku supplierId : String) : ProductsRow :=
  { sku := sku
    supplier_id := supplierId
    name := row.name
    name_en := row.nameEn
    barcode := if row.barcode = "" then none else some row.barcode
    brand_name := row.brand
    description := row.description
    ingredients := row.ingredients
    size_dimensions := row.dimensions
    weight_g := weightVal row.weightG
    origin := row.origin
    msrp := msrpVal row.msrp
    case_pack := row.casePack
    is_public := 1
    is_active_product := if row.inStock = "是" then 1 else 0 }

/-- One prepared D1 statement of the batch, by table.
`audienceInsertBadSql` is the v16 ProductAudience statement, whose SQL
text reads `INSERT OR IGGNORE` (a typo: not valid SQLite). -/
inductive Stmt where
  | productsInsert (p : ProductsRow) : Stmt
  | inventoryInsert (sku : String) (good defective : Int) : Stmt
  | tagsInsert (sku tag : String) : Stmt
  | audienceInsert (sku : String) (tag : Json) : Stmt
  | audienceInsertBadSql (sku : String) (tag : Json) : Stmt
  | imagesInsert (sku r2Key : String) (isPrimary : Int) : Stmt

/-- The SQL template text of each prepared statement, as written in the
source (condensed to one line). -/
def Stmt.sql : Stmt → String
  | .productsInsert _ =>
      "INSERT OR IGNORE INTO Products (sku, supplier_id, name, name_en, barcode, brand_name, description, ingredients, size_dimensions, weight_g, origin, msrp, case_pack, is_public, is_active_product) VALUES (?, ?, ?, ?, ?, ?, ?, ?, ?, ?, ?, ?, ?, 1, ?)"
  | .inventoryInsert _ _ _ =>
      "INSERT OR IGNORE INTO ProductInventory (sku, available_good, available_defective, last_synced_at) VALUES (?, ?, ?, datetime(\x27now\x27))"
  | .tagsInsert _ _ =>
      "INSERT OR IGNORE INTO ProductTags (sku, tag) VALUES (?, ?)"
  | .audienceInsert _ _ =>
      "INSERT OR IGNORE INTO ProductAudience (sku, audience_tag) VALUES (?, ?)"
  | .audienceInsertBadSql _ _ =>
      "INSERT OR IGGNORE INTO ProductAudience (sku, audience_tag) VALUES (?, ?)"
  | .imagesInsert _ _ _ =>
      "INSERT OR IGNORE INTO ProductImages (sku, r2_key, is_primary) VALUES (?, ?, ?)"

/-- Does the statement text use SQLite insert-if-absent syntax
(does it start with `INSERT OR IGNORE`)? -/
def isInsertIfAbsentSql (s : String) : Bool :=
  "INSERT OR IGNORE".toList.isPrefixOf s.toList

/-- Planner `getProductSqlStatements_v11` (CSV importer, v11/v12/v15): one
Products insert, one ProductInventory insert with the parsed stock
counters, a ProductTags insert when 類別 is truthy, and one
ProductAudience insert per truthy tag. -/
def getProductSqlStatements_v11 (row : Row) (sku supplierId : String)
    (audienceTags : List Json) : List Stmt :=
  [Stmt.productsInsert (productsRowOf row sku supplierId),
   Stmt.inventoryInsert sku (intVal row.stockGood) (intVal row.stockDefective)]
  ++ (if row.category ≠ "" then [Stmt.tagsInsert sku row.category] else [])
  ++ (audienceTags.filter Json.truthy).map (fun t => Stmt.audienceInsert sku t)

/-- Planner `getProductSqlStatements_v16` (Airtable importer, v18): as v11 but
inventory counters are the constants 0/0, and the ProductAudience
statement carries the malformed `INSERT OR IGGNORE` SQL. -/
def getProductSqlStatements_v16 (row : Row) (sku supplierId : String)
    (audienceTags : List Json) : List Stmt :=
  [Stmt.productsInsert (productsRowOf row sku supplierId),
   Stmt.inventoryInsert sku 0 0]
  ++ (if row.category ≠ "" then [Stmt.tagsInsert sku row.category] else [])
  ++ (audienceTags.filter Json.truthy).map (fun t => Stmt.audienceInsertBadSql sku t)

/-! ## The relational store -/

/-- State of the five product tables plus Suppliers, each a keyed row
list (Products keyed by sku, ProductInventory by sku, ProductTags by
(sku, tag), ProductAudience by (sku, audience_tag), ProductImages by
(sku, r2_key), Suppliers by supplier_id). -/
structure Store where
  products : List ProductsRow := []
  inventory : List (String × Int × Int) := []
  tags : List (String × String) := []
  audience : List (String × Json) := []
  images : List (String × String × Int) := []
  suppliers : List (String × String × String) := []

/-- The empty store. -/
def Store.empty : Store := {}

/-- Execute one prepared statement: `INSERT OR IGNORE` succeeds as a
no-op when the key is already present; the malformed v16 statement is
rejected by the SQL parser. -/
def Store.applyStmt (st : Store) : Stmt → Except String Store
  | .productsInsert p =>
    if st.products.any (fun q => q.sku == p.sku) then .ok st
    else .ok { st with products := st.products ++ [p] }
  | .inventoryInsert sku g d =>
    if st.inventory.any (fun q => q.1 == sku) then .ok st
    else .ok { st with inventory := st.inventory ++ [(sku, g, d)] }
  | .tagsInsert sku tag =>
    if st.tags.any (fun q => q.1 == sku && q.2 == tag) then .ok st
    else .ok { st with tags := st.tags ++ [(sku, tag)] }
  | .audienceInsert sku tag =>
    if st.audience.any (fun q => q.1 == sku && Json.beq q.2 tag) then .ok st
    else .ok { st with audience := st.audience ++ [(sku, tag)] }
  | .audienceInsertBadSql _ _ => .error "near \x22IGGNORE\x22: syntax error"
  | .imagesInsert sku key p =>
    if st.images.any (fun q => q.1 == sku && q.2.1 == key) then .ok st
    else .ok { st with images := st.images ++ [(sku, key, p)] }

/-- Model of `DB.batch(statements)`: sequential execution; any statement error
fails the whole (all-or-nothing) batch. -/
def Store.applyBatch (st : Store) (stmts : List Stmt) : Except String Store :=
  stmts.foldlM Store.applyStmt st

/-! ## Image replication (`5c. 處理圖片`) -/

/-- The R2 object key template literal
`` `${supplierId}/${sku}/image-${imageIndex + 1}.jpg` `` with
`imageIndex` the 0-based loop index. -/
def r2KeyOf (supplierId sku : String) (imageIndex : Nat) : String :=
  s!"{supplierId}/{sku}/image-{imageIndex + 1}.jpg"

/-- Model of `fetchAndUploadImage` of v14/v15/v18: `fetch`, throw
`下載失敗: status statusText` on `!response.ok`, then `bucket.put`;
errors propagate to the caller. -/
def fetchAndUploadImage (o : FetchOutcome) : Except String Unit :=
  match o with
  | .ok _ => .ok ()
  | .httpError status statusText => .error s!"下載失敗: {status} {statusText}"
  | .threw m => .error m

/-- Is the `Except` a success? -/
def exceptOk {ε α : Type} : Except ε α → Bool
  | .ok _ => true
  | .error _ => false

/-- The awaited image loop of v14/v15/v18, from index `i`:
`await fetchAndUploadImage(...)`; only on success is the
`INSERT OR IGNORE INTO ProductImages` statement pushed, and the success
log; on error only the failure log (with the URL cut to 30 chars). -/
def processImagesAwaitedAux (supplierId sku : String) : Nat → List ImageSpec → List Stmt × List LogEntry
  | _, [] => ([], [])
  | i, img :: rest =>
    let isPrimary : Int := if i = 0 then 1 else 0
    let r2Key := r2KeyOf supplierId sku i
    let tail := processImagesAwaitedAux supplierId sku (i + 1) rest
    match fetchAndUploadImage img.fetch with
    | .ok _ =>
      (Stmt.imagesInsert sku r2Key isPrimary :: tail.1,
       LogEntry.imageUploaded (i + 1) r2Key :: tail.2)
    | .error m =>
      (tail.1, LogEntry.imageFailed (i + 1) (img.url.take 30) m :: tail.2)

/-- The awaited image loop of v14/v15/v18 (`imageIndex` starts at 0). -/
def processImagesAwaited (supplierId sku : String) (images : List ImageSpec) :
    List Stmt × List LogEntry :=
  processImagesAwaitedAux supplierId sku 0 images

/-- The fire-and-forget image loop of v10/v11/v12
(`ctx.waitUntil(fetchAndUploadImage(...))`): the upload is started in
the background (its variant of `fetchAndUploadImage` also swallows its
own errors), and the ProductImages statement and the `開始上傳` log are
pushed unconditionally — the loop never observes the upload outcome. -/
def processImagesBackgroundAux (supplierId sku : String) : Nat → List ImageSpec → List Stmt × List LogEntry
  | _, [] => ([], [])
  | i, _img :: rest =>
    let isPrimary : Int := if i = 0 then 1 else 0
    let r2Key := r2KeyOf supplierId sku i
    let tail := processImagesBackgroundAux supplierId sku (i + 1) rest
    (Stmt.imagesInsert sku r2Key isPrimary :: tail.1,
     LogEntry.imageUploadStarted (i + 1) r2Key :: tail.2)

/-- The fire-and-forget image loop of v10/v11/v12. -/
def processImagesBackground (supplierId sku : String) (images : List ImageSpec) :
    List Stmt × List LogEntry :=
  processImagesBackgroundAux supplierId sku 0 images

/-! ## Supplier auto-creation and the page loop (v15 endpoint) -/

/-- Mutations the invocation performs against the relational store.
`supplierInsert` is the immediate `INSERT INTO Suppliers ... .run()`
inside `ensureSupplierExists`; `batchCommit` is the single successful
`DB.batch(dbStatements)` call. -/
inductive Mutation where
  | supplierInsert (supplierId name email : String) : Mutation
  | batchCommit (stmts : List Stmt) : Mutation

/-- Is the mutation a supplier auto-creation insert? -/
def Mutation.isSupplierInsert : Mutation → Bool
  | .supplierInsert _ _ _ => true
  | .batchCommit _ => false

/-- Template `` `${supplierId.toLowerCase().replace(/\s+/g, '')}@geminilink.auto` ``:
the placeholder contact address synthesized for auto-created
suppliers. -/
def supplierTempEmail (supplierId : String) : String :=
  String.mk ((supplierId.toList.map Char.toLower).filter (fun c => ¬ c.isWhitespace))
    ++ "@geminilink.auto"

/-- Model of `ensureSupplierExists(db, supplierId)`: SELECT the supplier; when
absent, immediately INSERT a placeholder row (plain `INSERT INTO
Suppliers`, not `OR IGNORE`; the guard is the preceding SELECT).
Returns the updated store view and the mutations performed. -/
def ensureSupplierExists (st : Store) (supplierId : String) : Store × List Mutation :=
  if st.suppliers.any (fun q => q.1 == supplierId) then (st, [])
  else
    ({ st with suppliers := st.suppliers ++ [(supplierId, supplierId, supplierTempEmail supplierId)] },
     [Mutation.supplierInsert supplierId supplierId (supplierTempEmail supplierId)])

/-- Accumulator threaded through the per-row loop of the v15
`GET /api/admin/batch-import` handler: the `dbStatements` list, the
`importLog`, the store mutations already performed, and the resulting
view of the Suppliers table. -/
structure PageAcc where
  stmts : List Stmt
  logs : List LogEntry
  muts : List Mutation
  store : Store

/-- One iteration of `for (const row of productsToProcess)` in the v15
handler: read 商品貨號 and 供應商 (falling back to `WEDO`), silently
skip rows without a SKU, ensure the supplier exists (on a thrown D1
error: log and continue), classify the audience, push the v11 product
statements and the prepared log, then run the awaited image loop. -/
def processRow (acc : PageAcc) (row : Row) : PageAcc :=
  let sku := row.sku
  let supplierId := if row.supplier = "" then "WEDO" else row.supplier
  if sku = "" then acc
  else
    match row.supplierCreateError with
    | some m => { acc with logs := acc.logs ++ [.supplierFailed sku supplierId m] }
    | none =>
      let ensured := ensureSupplierExists acc.store supplierId
      let ai := classifyAudience sku row.ai
      let productStatements := getProductSqlStatements_v11 row sku supplierId ai.1
      let imgs := processImagesAwaited supplierId sku row.images
      { stmts := acc.stmts ++ productStatements ++ imgs.1
        logs := acc.logs ++ ai.2 ++ [.prepared sku supplierId ai.1] ++ imgs.2
        muts := acc.muts ++ ensured.2
        store := ensured.1 }

/-- The whole per-row loop over one fetched page, starting from the
initial store `st0` with empty statement/log/mutation lists. -/
def processPage (st0 : Store) (rows : List Row) : PageAcc :=
  rows.foldl processRow { stmts := [], logs := [], muts := [], store := st0 }

/-! ## JavaScript numbers and `Array.prototype.slice` -/

/-- A JavaScript number restricted to the values the batch arithmetic
can take: an integer or NaN (`parseInt` failure). -/
inductive JNum where
  | nan : JNum
  | val (n : Int) : JNum
deriving DecidableEq, Repr

/-- NaN-propagating subtraction. -/
def JNum.sub : JNum → JNum → JNum
  | .val a, .val b => .val (a - b)
  | _, _ => .nan

/-- NaN-propagating addition. -/
def JNum.add : JNum → JNum → JNum
  | .val a, .val b => .val (a + b)
  | _, _ => .nan

/-- NaN-propagating multiplication. -/
def JNum.mul : JNum → JNum → JNum
  | .val a, .val b => .val (a * b)
  | _, _ => .nan

/-- Comparison `x > 0` in JavaScript: false for NaN. -/
def JNum.gtZero : JNum → Bool
  | .val n => n > 0
  | .nan => false

/-- Conversion `ToIntegerOrInfinity` as used by `Array.prototype.slice`:
NaN becomes 0. -/
def jsToInteger : JNum → Int
  | .nan => 0
  | .val n => n

/-- Result of `parseInt(s, 10)` as a JavaScript number (NaN on failure). -/
def jsParseIntJ (s : String) : JNum :=
  match jsParseInt s with
  | none => .nan
  | some n => .val n

/-- Clamp a relative `slice` index per ECMAScript: a negative index
counts from the end of the list, and the result lies in `[0, len]`. -/
def jsSliceClamp (len r : Int) : Int :=
  if r < 0 then max (len + r) 0 else min r len

/-- Model of `list.slice(start, stop)` per ECMAScript: relative indices are
clamped to `[0, len]`, negative values count from the end, NaN counts
as 0. -/
def jsSlice {α : Type} (l : List α) (start stop : JNum) : List α :=
  (l.drop (jsSliceClamp l.length (jsToInteger start)).toNat).take
    (jsSliceClamp l.length (jsToInteger stop) - jsSliceClamp l.length (jsToInteger start)).toNat

/-! ## The v15 batch-import endpoint -/

/-- Constant `const BATCH_SIZE = 3`. -/
def BATCH_SIZE : Int := 3

/-- Offset `(batchNumber - 1) * BATCH_SIZE` of the page slice. -/
def pageOffset (batchNumber : JNum) : JNum :=
  (batchNumber.sub (.val 1)).mul (.val BATCH_SIZE)

/-- Outcome of reading and parsing the CSV from R2: the `R2_BUCKET.get`
/ `.text()` / `parse` chain threw; or the object was `null` (404); or a
parsed row list. -/
inductive SourceResult where
  | fetchThrew (msg : String) : SourceResult
  | notFound : SourceResult
  | rows (allProducts : List Row) : SourceResult

/-- The JSON report of a successful v15 batch-import response.
`completionMessage` is true for the `🎉 全部匯入完成！` empty-page
branch and false for the `✅ 批次 n 完成。` branch; `remaining` is a
JavaScript number (`totalProducts - (offset + processed)`). -/
structure Report where
  completionMessage : Bool
  processed : Nat
  remaining : JNum
  totalProducts : Nat
  nextBatch : Option Int
  logs : List LogEntry

/-- The HTTP response of the v15 handler: a 200 report, or an error
JSON with status, optional `message`, and whether a `stack` field is
included. -/
inductive HttpResult where
  | ok (report : Report) : HttpResult
  | err (status : Nat) (message : Option String) (hasStack : Bool) : HttpResult

/-- The `processed` field of a 200 response, if any. -/
def HttpResult.processedCount : HttpResult → Option Nat
  | .ok r => some r.processed
  | .err _ _ _ => none

/-- The v15 `GET /api/admin/batch-import` handler body, after the batch
query parameter has been parsed (`batchNumber`), with the external
world given by `src` (the R2/CSV read) and `commitError`
(`some msg` when `DB.batch` throws).  Returns the HTTP response and the
ordered list of store mutations performed.  Any thrown error is caught
by the outer `try` and surfaced as
`{ error: '批次匯入失敗', message, stack }` with status 500. -/
def batchImportCore (st0 : Store) (src : SourceResult) (batchNumber : JNum)
    (commitError : Option String) : HttpResult × List Mutation :=
  match src with
  | .fetchThrew m => (.err 500 (some m) true, [])
  | .notFound => (.err 404 none false, [])
  | .rows allProducts =>
    let offset := pageOffset batchNumber
    let totalProducts := allProducts.length
    let productsToProcess := jsSlice allProducts offset (offset.add (.val BATCH_SIZE))
    if productsToProcess.isEmpty then
      (.ok { completionMessage := true, processed := 0, remaining := .val 0,
             totalProducts := totalProducts, nextBatch := none, logs := [] }, [])
    else
      let acc := processPage st0 productsToProcess
      let remaining := (JNum.val totalProducts).sub (offset.add (.val productsToProcess.length))
      let nextBatch : Option Int :=
        if remaining.gtZero then
          match batchNumber.add (.val 1) with
          | .val n => some n
          | .nan => none
        else none
      if acc.stmts.isEmpty then
        (.ok { completionMessage := false, processed := productsToProcess.length,
               remaining := remaining, totalProducts := totalProducts,
               nextBatch := nextBatch, logs := acc.logs ++ [.emptyBatchWarning] },
         acc.muts)
      else
        match commitError with
        | some m => (.err 500 (some m) true, acc.muts)
        | none =>
          (.ok { completionMessage := false, processed := productsToProcess.length,
                 remaining := remaining, totalProducts := totalProducts,
                 nextBatch := nextBatch, logs := acc.logs },
           acc.muts ++ [.batchCommit acc.stmts])

/-- The v15 handler including the query-parameter handling
`parseInt(url.searchParams.get('batch') || '1', 10)`. -/
def handleBatchImportV15 (st0 : Store) (src : SourceResult)
    (batchParam : Option String) (commitError : Option String) :
    HttpResult × List Mutation :=
  let raw := match batchParam with
    | none => "1"
    | some p => if p = "" then "1" else p
  batchImportCore st0 src (jsParseIntJ raw) commitError

/-! ## The client-driven pagination loop -/

/-- The completion report returned by the empty-page branch
(`🎉 全部匯入完成！`, `processed: 0`, `remaining: 0`, no next batch). -/
def completionReport (totalProducts : Nat) : Report :=
  { completionMessage := true, processed := 0, remaining := .val 0,
    totalProducts := totalProducts, nextBatch := none, logs := [] }

/-- The importer UI loop (`runBatch`): call the endpoint with batch
number `b`, then recurse on the returned `nextBatch` until it is null.
External calls are benign (`commitError = none`, store starts empty);
`fuel` bounds the recursion. -/
def importTraceAux (rows : List Row) : Int → Nat → List Report
  | _, 0 => []
  | b, fuel + 1 =>
    match batchImportCore Store.empty (.rows rows) (.val b) none with
    | (.ok rep, _) =>
      rep :: (match rep.nextBatch with
              | some b2 => importTraceAux rows b2 fuel
              | none => [])
    | (.err _ _ _, _) => []

/-- The reports seen by a client that starts at batch 1 and passes each
returned cursor forward. -/
def importTrace (rows : List Row) : List Report :=
  importTraceAux rows 1 (rows.length + 1)

/-- Does the last report of the trace carry a null cursor? -/
def lastCursorIsNull : List Report → Bool
  | [] => false
  | [r] => r.nextBatch.isNone
  | _ :: rs => lastCursorIsNull rs

/-! ## Concrete example inputs -/

/-- The closed audience vocabulary the prompt instructs the model to
use: `"Dog", "Cat", "Humans", "other"`. -/
def audienceVocab : List Json :=
  [Json.str "Dog", Json.str "Cat", Json.str "Humans", Json.str "other"]

/-- Minimal example row: SKU `A1`, all other cells empty, no images;
its generation oracle is the structure default (the model returned text
that fails `JSON.parse`). -/
def rowA1 : Row := { sku := "A1" }

/-- Example row with an empty 商品貨號 cell (skipped by the loop). -/
def rowNoSku : Row := {}

/-- Example row with three images whose second fetch returns HTTP 403. -/
def rowThreeImages : Row :=
  { sku := "A1"
    images := [⟨"https://x/1", .ok none⟩,
               ⟨"https://x/2", .httpError 403 "Forbidden"⟩,
               ⟨"https://x/3", .ok (some "image/png")⟩] }

/-- The empty page accumulator over the empty store. -/
def accEmpty : PageAcc := { stmts := [], logs := [], muts := [], store := Store.empty }

/-! ## Theorems -/

/-- Helper: the awaited image loop, started at index `i`, pushes exactly
one ProductImages statement per image whose fetch-and-upload succeeds,
at its position-derived key. -/
theorem processImagesAwaitedAux_enum (supplierId sku : String) :
    ∀ (images : List ImageSpec) (i : Nat),
    (processImagesAwaitedAux supplierId sku i images).1
      = ((List.enumFrom i images).filter
            (fun p => exceptOk (fetchAndUploadImage p.2.fetch))).map
          (fun p => Stmt.imagesInsert sku (r2KeyOf supplierId sku p.1)
                      (if p.1 = 0 then 1 else 0))
  | [], i => by simp [processImagesAwaitedAux]
  | img :: rest, i => by
    have ih := processImagesAwaitedAux_enum supplierId sku rest (i + 1)
    cases h : fetchAndUploadImage img.fetch with
    | ok u =>
      simp [processImagesAwaitedAux, h, List.enumFrom_cons, List.filter_cons,
            exceptOk, ih]
    | error m =>
      simp [processImagesAwaitedAux, h, List.enumFrom_cons, List.filter_cons,
            exceptOk, ih]

/-- Helper: the fire-and-forget image loop, started at index `i`,
pushes one ProductImages statement per image, unconditionally. -/
theorem processImagesBackgroundAux_enum (supplierId sku : String) :
    ∀ (images : List ImageSpec) (i : Nat),
    (processImagesBackgroundAux supplierId sku i images).1
      = (List.enumFrom i images).map
          (fun p => Stmt.imagesInsert sku (r2KeyOf supplierId sku p.1)
                      (if p.1 = 0 then 1 else 0))
  | [], i => by simp [processImagesBackgroundAux]
  | img :: rest, i => by
    have ih := processImagesBackgroundAux_enum supplierId sku rest (i + 1)
    simp [processImagesBackgroundAux, List.enumFrom_cons, ih]

/-- C2 (counterexample): in the v10/v11/v12 fire-and-forget variant
(`ctx.waitUntil(fetchAndUploadImage(...))` in `handleBatchImport`), the
ProductImages statement is appended for an image whose fetch returns
HTTP 403, i.e. whose fetch-and-upload step does not succeed — refuting
"appended only after that image's fetch-and-upload step has succeeded"
for every image of every row of the repository. -/
theorem C2_background_write_despite_failed_upload :
    (processImagesBackground "WEDO" "A1"
        [⟨"https://x/a", .httpError 403 "Forbidden"⟩]).1
      = [Stmt.imagesInsert "A1" "WEDO/A1/image-1.jpg" 1]
  ∧ fetchAndUploadImage (FetchOutcome.httpError 403 "Forbidden")
      = .error "下載失敗: 403 Forbidden" :=
  ⟨rfl, rfl⟩

/-- C2 (amended): in the awaited variants (v14/v15 CSV endpoint and
v18 Airtable endpoint) a ProductImages write is appended exactly for
the images whose fetch-and-upload succeeded, at their position-derived
keys; in the fire-and-forget variant (v10/v11/v12 `handleBatchImport`)
the write is appended for every image once its upload has been started,
regardless of the upload's eventual outcome (which that variant's
`fetchAndUploadImage` swallows, so no failure is ever known to the
loop at append time). -/
theorem C2_amended_image_write_conditions (supplierId sku : String)
    (images : List ImageSpec) :
    (processImagesAwaited supplierId sku images).1
      = ((List.enumFrom 0 images).filter
            (fun p => exceptOk (fetchAndUploadImage p.2.fetch))).map
          (fun p => Stmt.imagesInsert sku (r2KeyOf supplierId sku p.1)
                      (if p.1 = 0 then 1 else 0))
  ∧ (processImagesBackground supplierId sku images).1
      = (List.enumFrom 0 images).map
          (fun p => Stmt.imagesInsert sku (r2KeyOf supplierId sku p.1)
                      (if p.1 = 0 then 1 else 0)) :=
  ⟨processImagesAwaitedAux_enum supplierId sku images 0,
   processImagesBackgroundAux_enum supplierId sku images 0⟩

/-- C4 (counterexample): a model answer that parses to the empty JSON
array yields the empty tag set, not the `['other']` fallback the claim
requires for "an empty result"; and an answer that parses to a
non-array value yields the fallback but records no log line at all
(the claim requires a log line containing the SKU in that case too). -/
theorem C4_empty_or_nonarray_counterexample :
    (classifyAudience "A1" (.returned (.ok (Json.arr [])))).1 = []
  ∧ ([] : List Json) ≠ [Json.str "other"]
  ∧ classifyAudience "A1" (.returned (.ok Json.obj)) = ([Json.str "other"], []) :=
  ⟨rfl, by simp, rfl⟩

/-- C4 (amended): if the text-generation call throws, or its text fails
JSON parsing, the tag set is exactly `['other']` and a log line
carrying the SKU is recorded; if parsing succeeds with a non-array
value the tag set is `['other']` but no log line is recorded; if
parsing succeeds with an array, its falsy elements are filtered out and
the (possibly empty) remainder is used — an empty array yields the
empty tag set, not the fallback. -/
theorem C4_amended_classifier_fallback :
    (∀ sku m, classifyAudience sku (.threw m)
        = ([Json.str "other"], [.aiFallback sku m]))
  ∧ (∀ sku m, classifyAudience sku (.returned (.error m))
        = ([Json.str "other"], [.aiFallback sku m]))
  ∧ (∀ sku v, Json.isArr v = false →
        classifyAudience sku (.returned (.ok v)) = ([Json.str "other"], []))
  ∧ (∀ sku xs, classifyAudience sku (.returned (.ok (Json.arr xs)))
        = (xs.filter Json.truthy, [])) := by
  refine ⟨fun _ _ => rfl, fun _ _ => rfl, ?h3, fun _ _ => rfl⟩
  intro sku v h
  cases v <;> simp_all [classifyAudience, Json.isArr]

/-- C4 witness: instantiating the non-array clause at `Json.obj`. -/
theorem C4_amended_classifier_fallback_witness :
    classifyAudience "A1" (.returned (.ok Json.obj)) = ([Json.str "other"], []) :=
  C4_amended_classifier_fallback.2.2.1 "A1" Json.obj rfl

/-- C6 (counterexample): an msrp cell of `"$1,200"` does not parse to
its numeric value 1200 — after the first `$` is removed, `parseInt`
stops at the grouping comma and the stored msrp is 1. -/
theorem C6_msrp_grouping_comma_counterexample :
    msrpVal "$1,200" = 1 ∧ msrpVal "$1,200" ≠ 1200 :=
  ⟨by decide, by decide⟩

/-- C6 (amended): numeric normalization never errors; a weight cell of
`"abc"` normalizes to 0 and an unparseable msrp normalizes to 0; the
msrp cell has a single leading `$` stripped and is parsed with
`parseInt` semantics, which stop at the first non-digit — so `"$1200"`
parses to 1200 but `"$1,200"` parses to 1; the Products statement binds
exactly these normalized values. -/
theorem C6_amended_numeric_defaults :
    weightVal "abc" = 0
  ∧ msrpVal "abc" = 0
  ∧ msrpVal "$1200" = 1200
  ∧ msrpVal "$1,200" = 1
  ∧ (∀ row sku supplierId,
       (productsRowOf row sku supplierId).weight_g = weightVal row.weightG
     ∧ (productsRowOf row sku supplierId).msrp = msrpVal row.msrp) :=
  ⟨by decide, by decide, by decide, by decide, fun _ _ _ => ⟨rfl, rfl⟩⟩

/-- C7 (counterexample): if the model answers `["Zebra"]`, the parsed
tag `"Zebra"` — outside the closed 4-value vocabulary — survives
truthiness filtering and reaches a ProductAudience write. -/
theorem C7_unvalidated_tag_counterexample :
    (classifyAudience "A1" (.returned (.ok (Json.arr [Json.str "Zebra"])))).1
      = [Json.str "Zebra"]
  ∧ Json.str "Zebra" ∉ audienceVocab
  ∧ Stmt.audienceInsert "A1" (Json.str "Zebra")
      ∈ getProductSqlStatements_v11 rowA1 "A1" "WEDO" [Json.str "Zebra"] := by
  refine ⟨rfl, ?h2, ?h3⟩
  · simp [audienceVocab]
  · have h : getProductSqlStatements_v11 rowA1 "A1" "WEDO" [Json.str "Zebra"]
        = [Stmt.productsInsert (productsRowOf rowA1 "A1" "WEDO"),
           Stmt.inventoryInsert "A1" 0 0,
           Stmt.audienceInsert "A1" (Json.str "Zebra")] := rfl
    rw [h]
    simp

/-- C7 (amended): only the fallback paths guarantee vocabulary
membership (the tag set is then exactly `['other']`); when the model
returns a JSON array the code keeps every truthy element verbatim
without any vocabulary check, so arbitrary tags can flow into
ProductAudience writes — the 4-value vocabulary is enforced only by
the prompt text. -/
theorem C7_amended_vocabulary (sku : String) (o : GenOutcome) :
    ((classifyAudience sku o).1.all (fun t => audienceVocab.contains t) = true)
  ∨ (∃ xs, o = .returned (.ok (Json.arr xs))
        ∧ (classifyAudience sku o).1 = xs.filter Json.truthy) := by
  rcases o with m | pr
  · left; rfl
  · rcases pr with m | v
    · left; rfl
    · cases v with
      | arr xs => exact Or.inr ⟨xs, rfl, rfl⟩
      | null => left; rfl
      | bool b => left; rfl
      | num n => left; rfl
      | str s => left; rfl
      | obj => left; rfl

set_option maxRecDepth 20000 in
/-- C1 (code bug): the v18 persistence planner's ProductAudience
statement reads `INSERT OR IGGNORE` — a typo for `INSERT OR IGNORE`
(every sibling statement, and the v11 planner's same statement, use
`INSERT OR IGNORE`).  The statement is not insert-if-absent: it is not
valid SQLite at all, so the batch containing it errors on every run and
re-run for any product with a truthy audience tag. -/
theorem C1_v16_audience_statement_malformed :
    Stmt.sql (Stmt.audienceInsertBadSql "A1" (Json.str "Dog"))
      = "INSERT OR IGGNORE INTO ProductAudience (sku, audience_tag) VALUES (?, ?)"
  ∧ isInsertIfAbsentSql (Stmt.sql (Stmt.audienceInsertBadSql "A1" (Json.str "Dog"))) = false
  ∧ Stmt.audienceInsertBadSql "A1" (Json.str "Dog")
      ∈ getProductSqlStatements_v16 rowA1 "A1" "WEDO" [Json.str "Dog"]
  ∧ Store.applyBatch Store.empty
        (getProductSqlStatements_v16 rowA1 "A1" "WEDO" [Json.str "Dog"])
      = .error "near \x22IGGNORE\x22: syntax error" := by
  refine ⟨rfl, by decide, ?h3, rfl⟩
  have h : getProductSqlStatements_v16 rowA1 "A1" "WEDO" [Json.str "Dog"]
      = [Stmt.productsInsert (productsRowOf rowA1 "A1" "WEDO"),
         Stmt.inventoryInsert "A1" 0 0,
         Stmt.audienceInsertBadSql "A1" (Json.str "Dog")] := rfl
  rw [h]
  simp

/-- Helper: `slice(o, o + 3)` for a non-negative offset is
drop-then-take. -/
theorem jsSlice_val_add3 {α : Type} (l : List α) (o : Int) (ho : 0 ≤ o) :
    jsSlice l (.val o) (.val (o + 3)) = (l.drop o.toNat).take 3 := by
  have hs : jsSliceClamp l.length o = min o l.length := by
    unfold jsSliceClamp
    rw [if_neg (by omega)]
  have he : jsSliceClamp l.length (o + 3) = min (o + 3) l.length := by
    unfold jsSliceClamp
    rw [if_neg (by omega)]
  simp only [jsSlice, jsToInteger, hs, he]
  rcases le_or_lt (l.length : Int) o with h | h
  · rw [List.drop_eq_nil_of_le (by omega), List.drop_eq_nil_of_le (by omega)]
    simp
  · have hk : (min o (l.length : Int)).toNat = o.toNat := by omega
    rw [hk]
    refine List.take_eq_take.mpr ?hmin
    simp only [List.length_drop]
    omega

/-- Helper: `slice` with NaN bounds is empty. -/
theorem jsSlice_nan_nan {α : Type} (l : List α) :
    jsSlice l .nan .nan = [] := by
  simp only [jsSlice, jsToInteger]
  have hk : (jsSliceClamp l.length 0 - jsSliceClamp l.length 0).toNat = 0 := by
    omega
  rw [hk]
  simp

/-- Helper: `slice(-3, 0)` is empty for every list. -/
theorem jsSlice_neg3_zero {α : Type} (l : List α) :
    jsSlice l (.val (-3)) (.val 0) = [] := by
  have hs : jsSliceClamp l.length (-3) = max ((l.length : Int) + -3) 0 := by
    unfold jsSliceClamp
    rw [if_pos (by omega)]
  have he : jsSliceClamp l.length 0 = min 0 (l.length : Int) := by
    unfold jsSliceClamp
    rw [if_neg (by omega)]
  simp only [jsSlice, jsToInteger, hs, he]
  have h : ((min (0 : Int) (l.length : Int)) - max ((l.length : Int) + -3) 0).toNat = 0 := by
    omega
  rw [h]
  simp

/-- C10: a `batch` query parameter that does not parse as a number
(`parseInt` NaN, e.g. `"abc"`) makes the offset NaN and the slice
empty; a `"0"` parameter makes the offset −3 and `slice(-3, 0)` is also
empty.  In both cases the endpoint returns the completion report
(`processed: 0`, `remaining: 0`, no next batch) with no store mutation
and no error — for every row list, including sources that still contain
unprocessed rows. -/
theorem C10_invalid_batch_param_reports_completion (st0 : Store)
    (rows : List Row) (commitError : Option String) :
    handleBatchImportV15 st0 (.rows rows) (some "abc") commitError
      = (.ok (completionReport rows.length), [])
  ∧ handleBatchImportV15 st0 (.rows rows) (some "0") commitError
      = (.ok (completionReport rows.length), []) := by
  constructor
  · show batchImportCore st0 (.rows rows) (jsParseIntJ "abc") commitError = _
    have h1 : jsParseIntJ "abc" = .nan := by decide
    rw [h1]
    have h2 : jsSlice rows (pageOffset .nan) ((pageOffset .nan).add (.val BATCH_SIZE))
        = [] := by
      have h3 : pageOffset JNum.nan = .nan := rfl
      rw [h3]
      exact jsSlice_nan_nan rows
    simp only [batchImportCore, h2, List.isEmpty_nil, if_true]
    rfl
  · show batchImportCore st0 (.rows rows) (jsParseIntJ "0") commitError = _
    have h1 : jsParseIntJ "0" = .val 0 := by decide
    rw [h1]
    have h2 : jsSlice rows (pageOffset (.val 0)) ((pageOffset (.val 0)).add (.val BATCH_SIZE))
        = [] := by
      have h3 : pageOffset (JNum.val 0) = .val (-3) := by decide
      have h4 : (pageOffset (JNum.val 0)).add (.val BATCH_SIZE)
          = (JNum.val (-3)).add (.val BATCH_SIZE) := rfl
      have h5 : (JNum.val (-3)).add (.val BATCH_SIZE) = .val 0 := by decide
      rw [h3, h5]
      exact jsSlice_neg3_zero rows
    simp only [batchImportCore, h2, List.isEmpty_nil, if_true]
    rfl

/-- C5 (counterexample): a page consisting of a single row whose SKU
cell is empty produces no statement, no log line and no mutation — yet
the report's `processed` field is 1, because `processed` is
`productsToProcess.length`, the fetched page length including skipped
rows.  This refutes "the row does not count toward `processed`". -/
theorem C5_skipped_row_counts_toward_processed :
    batchImportCore Store.empty (.rows [rowNoSku]) (.val 1) none
      = (.ok { completionMessage := false, processed := 1, remaining := .val 0,
               totalProducts := 1, nextBatch := none,
               logs := [.emptyBatchWarning] }, [])
  ∧ (1 : Nat) ≠ 0 :=
  ⟨rfl, by simp⟩

/-- C5 (amended): a row with an empty/missing SKU is skipped silently —
it contributes no WriteOperation, no log line and no store mutation —
but it still counts toward `processed`, which always reports the full
fetched page length. -/
theorem C5_amended_skip_rule :
    (∀ acc row, row.sku = "" → processRow acc row = acc)
  ∧ (∀ st0 rows batchNumber,
       (jsSlice rows (pageOffset batchNumber)
          ((pageOffset batchNumber).add (.val BATCH_SIZE))).isEmpty = false →
       (batchImportCore st0 (.rows rows) batchNumber none).1.processedCount
         = some (jsSlice rows (pageOffset batchNumber)
                   ((pageOffset batchNumber).add (.val BATCH_SIZE))).length) := by
  constructor
  · intro acc row h
    simp [processRow, h]
  · intro st0 rows batchNumber h
    simp only [batchImportCore, h]
    cases hs : (processPage st0 (jsSlice rows (pageOffset batchNumber)
        ((pageOffset batchNumber).add (.val BATCH_SIZE)))).stmts.isEmpty <;>
      simp [hs, HttpResult.processedCount]

/-- C5 witness: the skip clause at the SKU-less example row, and the
`processed` clause at a one-row page. -/
theorem C5_amended_skip_rule_witness :
    processRow accEmpty rowNoSku = accEmpty
  ∧ (batchImportCore Store.empty (.rows [rowA1]) (.val 1) none).1.processedCount
      = some (jsSlice [rowA1] (pageOffset (.val 1))
                ((pageOffset (.val 1)).add (.val BATCH_SIZE))).length :=
  ⟨C5_amended_skip_rule.1 accEmpty rowNoSku rfl,
   C5_amended_skip_rule.2 Store.empty [rowA1] (.val 1) rfl⟩

/-- Helper: `processRow` only ever appends supplier-insert mutations. -/
theorem processRow_muts_supplier (acc : PageAcc) (row : Row)
    (h : acc.muts.all Mutation.isSupplierInsert = true) :
    (processRow acc row).muts.all Mutation.isSupplierInsert = true := by
  unfold processRow
  by_cases h1 : row.sku = ""
  · simp [h1, h]
  · simp only [h1, if_false]
    cases h2 : row.supplierCreateError with
    | some m => simpa using h
    | none =>
      unfold ensureSupplierExists
      by_cases h3 : acc.store.suppliers.any
          (fun q => q.1 == if row.supplier = "" then "WEDO" else row.supplier)
      · simpa [h3] using h
      · simp [h3, List.all_append, h, Mutation.isSupplierInsert]

/-- Helper: the page loop only ever performs supplier-insert
mutations (the product statements are committed separately, by the
single end-of-page `DB.batch`). -/
theorem processPage_muts_supplier (st0 : Store) (rows : List Row) :
    (processPage st0 rows).muts.all Mutation.isSupplierInsert = true := by
  unfold processPage
  have h : ∀ (l : List Row) (acc : PageAcc),
      acc.muts.all Mutation.isSupplierInsert = true →
      (l.foldl processRow acc).muts.all Mutation.isSupplierInsert = true := by
    intro l
    induction l with
    | nil => intro acc h; exact h
    | cons r rs ih =>
      intro acc h
      exact ih (processRow acc r) (processRow_muts_supplier acc r h)
  exact h rows { stmts := [], logs := [], muts := [], store := st0 } rfl

/-- C9 (counterexample): with one fresh-supplier row and a failing
`DB.batch`, the invocation aborts with the structured 500 error — but
the Suppliers insert performed by `ensureSupplierExists` during row
processing has already mutated the store, so store mutation is NOT
confined to the single end-of-page batch call and the abort is not
mutation-free. -/
theorem C9_supplier_mutation_outside_batch :
    batchImportCore Store.empty (.rows [rowA1]) (.val 1) (some "D1_ERROR: batch failed")
      = (.err 500 (some "D1_ERROR: batch failed") true,
         [Mutation.supplierInsert "WEDO" "WEDO" "wedo@geminilink.auto"])
  ∧ ([Mutation.supplierInsert "WEDO" "WEDO" "wedo@geminilink.auto"]
       : List Mutation) ≠ [] :=
  ⟨rfl, by simp⟩

/-- C9 (amended): an exception in the page fetch aborts with a 500
error carrying the message and a stack trace, with no mutation at all;
a failing commit aborts the same way and the product batch is never
applied (the only mutations performed are the immediate supplier
auto-creation inserts, which do survive the abort); an empty statement
list skips the commit and appends the warning log line. -/
theorem C9_amended_failure_semantics :
    (∀ st0 batchNumber commitError m,
        batchImportCore st0 (.fetchThrew m) batchNumber commitError
          = (.err 500 (some m) true, []))
  ∧ (∀ st0 rows batchNumber m,
        (jsSlice rows (pageOffset batchNumber)
           ((pageOffset batchNumber).add (.val BATCH_SIZE))).isEmpty = false →
        (processPage st0 (jsSlice rows (pageOffset batchNumber)
           ((pageOffset batchNumber).add (.val BATCH_SIZE)))).stmts.isEmpty = false →
        batchImportCore st0 (.rows rows) batchNumber (some m)
          = (.err 500 (some m) true,
             (processPage st0 (jsSlice rows (pageOffset batchNumber)
                ((pageOffset batchNumber).add (.val BATCH_SIZE)))).muts)
        ∧ (processPage st0 (jsSlice rows (pageOffset batchNumber)
             ((pageOffset batchNumber).add (.val BATCH_SIZE)))).muts.all
            Mutation.isSupplierInsert = true)
  ∧ (∀ st0 rows batchNumber commitError,
        (jsSlice rows (pageOffset batchNumber)
           ((pageOffset batchNumber).add (.val BATCH_SIZE))).isEmpty = false →
        (processPage st0 (jsSlice rows (pageOffset batchNumber)
           ((pageOffset batchNumber).add (.val BATCH_SIZE)))).stmts.isEmpty = true →
        ∃ rep, batchImportCore st0 (.rows rows) batchNumber commitError
                 = (.ok rep,
                    (processPage st0 (jsSlice rows (pageOffset batchNumber)
                       ((pageOffset batchNumber).add (.val BATCH_SIZE)))).muts)
             ∧ rep.logs
                 = (processPage st0 (jsSlice rows (pageOffset batchNumber)
                      ((pageOffset batchNumber).add (.val BATCH_SIZE)))).logs
                   ++ [.emptyBatchWarning]) := by
  refine ⟨fun _ _ _ _ => rfl, ?h2, ?h3⟩
  · intro st0 rows batchNumber m hpage hstmts
    constructor
    · simp only [batchImportCore, hpage, hstmts]
      rfl
    · exact processPage_muts_supplier st0 _
  · intro st0 rows batchNumber commitError hpage hstmts
    simp only [batchImportCore, hpage, hstmts]
    exact ⟨_, rfl, rfl⟩

/-- C9 witness: the commit-failure clause at a one-row page over the
empty store, and the empty-statement clause at a one-row page whose
only row is skipped. -/
theorem C9_amended_failure_semantics_witness :
    (batchImportCore Store.empty (.rows [rowA1]) (.val 1) (some "D1_ERROR: batch failed")
       = (.err 500 (some "D1_ERROR: batch failed") true,
          (processPage Store.empty (jsSlice [rowA1] (pageOffset (.val 1))
             ((pageOffset (.val 1)).add (.val BATCH_SIZE)))).muts)
     ∧ (processPage Store.empty (jsSlice [rowA1] (pageOffset (.val 1))
          ((pageOffset (.val 1)).add (.val BATCH_SIZE)))).muts.all
         Mutation.isSupplierInsert = true)
  ∧ (∃ rep, batchImportCore Store.empty (.rows [rowNoSku]) (.val 1) none
              = (.ok rep,
                 (processPage Store.empty (jsSlice [rowNoSku] (pageOffset (.val 1))
                    ((pageOffset (.val 1)).add (.val BATCH_SIZE)))).muts)
          ∧ rep.logs
              = (processPage Store.empty (jsSlice [rowNoSku] (pageOffset (.val 1))
                   ((pageOffset (.val 1)).add (.val BATCH_SIZE)))).logs
                ++ [.emptyBatchWarning]) :=
  ⟨C9_amended_failure_semantics.2.1 Store.empty [rowA1] (.val 1)
     "D1_ERROR: batch failed" rfl rfl,
   C9_amended_failure_semantics.2.2 Store.empty [rowNoSku] (.val 1) none rfl rfl⟩

/-- C8: for a row with three images whose second fetch returns a
non-success HTTP status, the awaited image loop still appends the
ProductImages writes for images 1 and 3 at their original
position-derived keys (`image-1.jpg` primary, `image-3.jpg` not),
records a log entry for image 2's failure, and the row's non-image
writes are exactly `getProductSqlStatements_v11` — unaffected by the
failure. -/
theorem C8_image_isolation (acc : PageAcc) (row : Row)
    (u1 u2 u3 : String) (ct1 ct3 : Option String)
    (status : Nat) (statusText : String)
    (himg : row.images = [⟨u1, .ok ct1⟩, ⟨u2, .httpError status statusText⟩,
                          ⟨u3, .ok ct3⟩])
    (hsku : row.sku ≠ "")
    (hsupp : row.supplierCreateError = none) :
    (processRow acc row).stmts
      = acc.stmts
        ++ getProductSqlStatements_v11 row row.sku
             (if row.supplier = "" then "WEDO" else row.supplier)
             (classifyAudience row.sku row.ai).1
        ++ [Stmt.imagesInsert row.sku
              (r2KeyOf (if row.supplier = "" then "WEDO" else row.supplier) row.sku 0) 1,
            Stmt.imagesInsert row.sku
              (r2KeyOf (if row.supplier = "" then "WEDO" else row.supplier) row.sku 2) 0]
  ∧ (processRow acc row).logs
      = acc.logs ++ (classifyAudience row.sku row.ai).2
        ++ [.prepared row.sku (if row.supplier = "" then "WEDO" else row.supplier)
              (classifyAudience row.sku row.ai).1]
        ++ [.imageUploaded 1
              (r2KeyOf (if row.supplier = "" then "WEDO" else row.supplier) row.sku 0),
            .imageFailed 2 (u2.take 30) s!"下載失敗: {status} {statusText}",
            .imageUploaded 3
              (r2KeyOf (if row.supplier = "" then "WEDO" else row.supplier) row.sku 2)] := by
  have h1 : processImagesAwaited (if row.supplier = "" then "WEDO" else row.supplier)
      row.sku row.images
      = ([Stmt.imagesInsert row.sku
            (r2KeyOf (if row.supplier = "" then "WEDO" else row.supplier) row.sku 0) 1,
          Stmt.imagesInsert row.sku
            (r2KeyOf (if row.supplier = "" then "WEDO" else row.supplier) row.sku 2) 0],
         [LogEntry.imageUploaded 1
            (r2KeyOf (if row.supplier = "" then "WEDO" else row.supplier) row.sku 0),
          LogEntry.imageFailed 2 (u2.take 30) s!"下載失敗: {status} {statusText}",
          LogEntry.imageUploaded 3
            (r2KeyOf (if row.supplier = "" then "WEDO" else row.supplier) row.sku 2)]) := by
    rw [himg]
    rfl
  constructor
  · simp only [processRow, hsupp, hsku, if_neg, h1]
    simp [List.append_assoc]
  · simp only [processRow, hsupp, hsku, if_neg, h1]
    simp [List.append_assoc]

/-- C8 witness: the theorem instantiated at a concrete page accumulator
and a concrete three-image row whose second image URL answers 403. -/
theorem C8_image_isolation_witness :
    (processRow accEmpty rowThreeImages).stmts
      = accEmpty.stmts
        ++ getProductSqlStatements_v11 rowThreeImages rowThreeImages.sku
             (if rowThreeImages.supplier = "" then "WEDO" else rowThreeImages.supplier)
             (classifyAudience rowThreeImages.sku rowThreeImages.ai).1
        ++ [Stmt.imagesInsert rowThreeImages.sku
              (r2KeyOf (if rowThreeImages.supplier = "" then "WEDO" else rowThreeImages.supplier)
                rowThreeImages.sku 0) 1,
            Stmt.imagesInsert rowThreeImages.sku
              (r2KeyOf (if rowThreeImages.supplier = "" then "WEDO" else rowThreeImages.supplier)
                rowThreeImages.sku 2) 0]
  ∧ (processRow accEmpty rowThreeImages).logs
      = accEmpty.logs ++ (classifyAudience rowThreeImages.sku rowThreeImages.ai).2
        ++ [.prepared rowThreeImages.sku
              (if rowThreeImages.supplier = "" then "WEDO" else rowThreeImages.supplier)
              (classifyAudience rowThreeImages.sku rowThreeImages.ai).1]
        ++ [.imageUploaded 1
              (r2KeyOf (if rowThreeImages.supplier = "" then "WEDO" else rowThreeImages.supplier)
                rowThreeImages.sku 0),
            .imageFailed 2 ("https://x/2".take 30) "下載失敗: 403 Forbidden",
            .imageUploaded 3
              (r2KeyOf (if rowThreeImages.supplier = "" then "WEDO" else rowThreeImages.supplier)
                rowThreeImages.sku 2)] :=
  C8_image_isolation accEmpty rowThreeImages "https://x/1" "https://x/2" "https://x/3"
    none (some "image/png") 403 "Forbidden" rfl (by decide) rfl

/-- Helper: the behaviour of one benign v15 call (`commitError = none`,
empty initial store) at batch number `b ≥ 1`: the page is
`rows[3(b-1) .. 3(b-1)+3)`; an exhausted offset returns the completion
report, and a non-empty page returns a `✅` report whose `processed` is
the page length and whose `nextBatch` is `b + 1` exactly when rows
remain beyond this page. -/
theorem batchImportCore_benign (rows : List Row) (b : Int) (hb : 1 ≤ b) :
    (rows.length ≤ ((b - 1) * 3).toNat →
       batchImportCore Store.empty (.rows rows) (.val b) none
         = (.ok (completionReport rows.length), []))
  ∧ (((b - 1) * 3).toNat < rows.length →
       ∃ logs muts,
         batchImportCore Store.empty (.rows rows) (.val b) none
           = (.ok { completionMessage := false,
                    processed := ((rows.drop ((b - 1) * 3).toNat).take 3).length,
                    remaining := .val ((rows.length : Int) - ((b - 1) * 3
                        + (((rows.drop ((b - 1) * 3).toNat).take 3).length : Int))),
                    totalProducts := rows.length,
                    nextBatch :=
                      if 0 < (rows.length : Int) - ((b - 1) * 3
                          + (((rows.drop ((b - 1) * 3).toNat).take 3).length : Int))
                      then some (b + 1) else none,
                    logs := logs }, muts)) := by
  have ho : (0 : Int) ≤ (b - 1) * 3 := by omega
  have hoff : pageOffset (.val b) = .val ((b - 1) * 3) := rfl
  have hoff2 : (pageOffset (.val b)).add (.val BATCH_SIZE)
      = JNum.val ((b - 1) * 3 + 3) := rfl
  have hslice : jsSlice rows (pageOffset (.val b))
      ((pageOffset (.val b)).add (.val BATCH_SIZE))
      = (rows.drop ((b - 1) * 3).toNat).take 3 := by
    rw [hoff2, hoff]
    exact jsSlice_val_add3 rows _ ho
  constructor
  · intro hle
    have hpage : (rows.drop ((b - 1) * 3).toNat).take 3 = [] := by
      rw [List.drop_eq_nil_of_le (by omega)]
      simp
    simp only [batchImportCore]
    rw [hslice, hpage]
    simp only [List.isEmpty_nil, if_true]
    rfl
  · intro hlt
    have hne : ((rows.drop ((b - 1) * 3).toNat).take 3).isEmpty = false := by
      rcases h : ((rows.drop ((b - 1) * 3).toNat).take 3).isEmpty with _ | _
      · rfl
      · exfalso
        have h2 := List.isEmpty_iff.mp h
        have h3 : ((rows.drop ((b - 1) * 3).toNat).take 3).length = 0 := by
          rw [h2]; rfl
        simp only [List.length_take, List.length_drop] at h3
        omega
    cases hs : (processPage Store.empty
        ((rows.drop ((b - 1) * 3).toNat).take 3)).stmts.isEmpty with
    | true =>
      refine ⟨(processPage Store.empty
          ((rows.drop ((b - 1) * 3).toNat).take 3)).logs ++ [.emptyBatchWarning],
        (processPage Store.empty ((rows.drop ((b - 1) * 3).toNat).take 3)).muts, ?he⟩
      case he =>
      simp only [batchImportCore]
      rw [hslice, hoff]
      simp only [hne, hs, Bool.false_eq_true, if_false, if_true, JNum.sub, JNum.add,
        JNum.gtZero, decide_eq_true_eq, gt_iff_lt]
    | false =>
      refine ⟨(processPage Store.empty
          ((rows.drop ((b - 1) * 3).toNat).take 3)).logs,
        (processPage Store.empty ((rows.drop ((b - 1) * 3).toNat).take 3)).muts
          ++ [.batchCommit (processPage Store.empty
                ((rows.drop ((b - 1) * 3).toNat).take 3)).stmts], ?he2⟩
      case he2 =>
      simp only [batchImportCore]
      rw [hslice, hoff]
      simp only [hne, hs, Bool.false_eq_true, if_false, if_true, JNum.sub, JNum.add,
        JNum.gtZero, decide_eq_true_eq, gt_iff_lt]

/-- Helper: shape of the client-driven trace started at batch `b ≥ 1`
with enough fuel: past-the-end offsets yield the single completion
report; otherwise every visited report is a non-empty page, there are
exactly `ceil((N - offset)/3)` of them, and the last one carries a null
cursor — no separate empty terminal page is ever visited. -/
theorem importTraceAux_spec (rows : List Row) :
    ∀ (fuel : Nat) (b : Int), 1 ≤ b →
      (rows.length ≤ ((b - 1) * 3).toNat → 1 ≤ fuel →
         importTraceAux rows b fuel = [completionReport rows.length])
    ∧ (((b - 1) * 3).toNat < rows.length →
         (rows.length - ((b - 1) * 3).toNat + 2) / 3 ≤ fuel →
           (importTraceAux rows b fuel).all (fun r => r.processed != 0) = true
         ∧ (importTraceAux rows b fuel).length
             = (rows.length - ((b - 1) * 3).toNat + 2) / 3
         ∧ lastCursorIsNull (importTraceAux rows b fuel) = true) := by
  intro fuel
  induction fuel with
  | zero =>
    intro b hb
    constructor
    · intro _ h
      omega
    · intro h1 h2
      exfalso
      omega
  | succ n ih =>
    intro b hb
    obtain ⟨hc1, hc2⟩ := batchImportCore_benign rows b hb
    constructor
    · intro hle _
      have he := hc1 hle
      simp [importTraceAux, he, completionReport]
    · intro hlt hfuel
      obtain ⟨logs, muts, he⟩ := hc2 hlt
      have hlen : ((rows.drop ((b - 1) * 3).toNat).take 3).length
          = min 3 (rows.length - ((b - 1) * 3).toNat) := by
        simp [List.length_take, List.length_drop]
      by_cases hmore : ((b - 1) * 3).toNat + 3 < rows.length
      · have hcond : 0 < (rows.length : Int) - ((b - 1) * 3
            + (((rows.drop ((b - 1) * 3).toNat).take 3).length : Int)) := by
          omega
        have he2 : batchImportCore Store.empty (.rows rows) (.val b) none
            = (.ok { completionMessage := false,
                     processed := ((rows.drop ((b - 1) * 3).toNat).take 3).length,
                     remaining := .val ((rows.length : Int) - ((b - 1) * 3
                         + (((rows.drop ((b - 1) * 3).toNat).take 3).length : Int))),
                     totalProducts := rows.length,
                     nextBatch := some (b + 1),
                     logs := logs }, muts) := by
          rw [he, if_pos hcond]
        obtain ⟨ha, hl, hc⟩ := (ih (b + 1) (by omega)).2 (by omega) (by omega)
        refine ⟨?hall, ?hlen2, ?hlast⟩
        · simp only [importTraceAux, he2, List.all_cons, ha, Bool.and_true]
          simp only [bne_iff_ne, ne_eq, decide_eq_true_eq]
          omega
        · simp only [importTraceAux, he2, List.length_cons, hl]
          omega
        · simp only [importTraceAux, he2]
          have htail : importTraceAux rows (b + 1) n ≠ [] := by
            intro h0
            rw [h0] at hl
            simp only [List.length_nil] at hl
            omega
          cases htl : importTraceAux rows (b + 1) n with
          | nil => exact absurd htl htail
          | cons x xs =>
            rw [htl] at hc
            exact hc
      · have hcond : ¬ (0 < (rows.length : Int) - ((b - 1) * 3
            + (((rows.drop ((b - 1) * 3).toNat).take 3).length : Int))) := by
          omega
        have he2 : batchImportCore Store.empty (.rows rows) (.val b) none
            = (.ok { completionMessage := false,
                     processed := ((rows.drop ((b - 1) * 3).toNat).take 3).length,
                     remaining := .val ((rows.length : Int) - ((b - 1) * 3
                         + (((rows.drop ((b - 1) * 3).toNat).take 3).length : Int))),
                     totalProducts := rows.length,
                     nextBatch := none,
                     logs := logs }, muts) := by
          rw [he, if_neg hcond]
        refine ⟨?hall2, ?hlen3, ?hlast2⟩
        · simp only [importTraceAux, he2, List.all_cons, List.all_nil, Bool.and_true]
          simp only [bne_iff_ne, ne_eq, decide_eq_true_eq]
          omega
        · simp only [importTraceAux, he2, List.length_cons, List.length_nil]
          omega
        · simp only [importTraceAux, he2]
          rfl

/-- C3 (counterexample): for a one-row source, the driven sequence
consists of exactly one page — a non-empty page (`processed = 1`) which
itself carries the null cursor.  The claim requires ceil(1/3) = 1
non-empty page *followed by* one terminal page with a null cursor and
zero rows; no such empty terminal page is ever visited (the trace
contains no report with `processed = 0`). -/
theorem C3_no_terminal_page_counterexample :
    importTrace [rowA1]
      = [{ completionMessage := false, processed := 1, remaining := .val 0,
           totalProducts := 1, nextBatch := none,
           logs := [.aiFallback "A1" "Unexpected end of JSON input",
                    .prepared "A1" "WEDO" [Json.str "other"]] }]
  ∧ ((importTrace [rowA1]).filter (fun r => r.processed == 0)).length = 0 :=
  ⟨rfl, rfl⟩

/-- C3 (amended): the driven sequence visits exactly ceil(N/3)
non-empty pages; the *last non-empty page* carries the null cursor, so
no separate terminal call is made — except when N = 0, where the single
first call is the empty terminal page.  An empty fetched page always
reports completion immediately (`processed = 0`, `remaining = 0`, no
cursor, no mutation), including on the very first call. -/
theorem C3_amended_pagination :
    (∀ rows : List Row,
        ((importTrace rows).filter (fun r => r.processed != 0)).length
          = (rows.length + 2) / 3)
  ∧ (∀ rows : List Row, rows ≠ [] →
        (importTrace rows).all (fun r => r.processed != 0) = true)
  ∧ (∀ rows : List Row, lastCursorIsNull (importTrace rows) = true)
  ∧ (∀ rows : List Row, rows = [] → importTrace rows = [completionReport 0])
  ∧ (∀ (st0 : Store) (rows : List Row) (batchNumber : JNum)
        (commitError : Option String),
        (jsSlice rows (pageOffset batchNumber)
           ((pageOffset batchNumber).add (.val BATCH_SIZE))).isEmpty = true →
        batchImportCore st0 (.rows rows) batchNumber commitError
          = (.ok (completionReport rows.length), [])) := by
  have key : ∀ rows : List Row, rows ≠ [] →
      (importTrace rows).all (fun r => r.processed != 0) = true
    ∧ (importTrace rows).length = (rows.length + 2) / 3
    ∧ lastCursorIsNull (importTrace rows) = true := by
    intro rows hne
    have hN : 0 < rows.length := List.length_pos.mpr hne
    have hspec := (importTraceAux_spec rows (rows.length + 1) 1 (by norm_num)).2
      (by omega) (by omega)
    unfold importTrace
    exact ⟨hspec.1, by rw [hspec.2.1]; omega, hspec.2.2⟩
  have hempty : ∀ rows : List Row, rows = [] →
      importTrace rows = [completionReport 0] := by
    intro rows h
    subst h
    exact (importTraceAux_spec [] 1 1 (by norm_num)).1 (by simp) (by omega)
  refine ⟨?hcount, fun rows h => (key rows h).1, ?hlast, hempty, ?hterm⟩
  · intro rows
    by_cases h : rows = []
    · rw [hempty rows h, h]
      rfl
    · obtain ⟨ha, hl, _⟩ := key rows h
      rw [List.filter_eq_self.mpr (List.all_eq_true.mp ha), hl]
  · intro rows
    by_cases h : rows = []
    · rw [hempty rows h]
      rfl
    · exact (key rows h).2.2
  · intro st0 rows batchNumber commitError h
    simp only [batchImportCore, h, if_true]
    rfl

/-- C3 witness: the non-empty-trace clause at a one-row source, and the
empty-page clause at the empty source on its very first call. -/
theorem C3_amended_pagination_witness :
    (importTrace [rowA1]).all (fun r => r.processed != 0) = true
  ∧ batchImportCore Store.empty (.rows []) (.val 1) none
      = (.ok (completionReport 0), []) :=
  ⟨C3_amended_pagination.2.1 [rowA1] (by simp),
   C3_amended_pagination.2.2.2.2 Store.empty [] (.val 1) none rfl⟩
